import Mathlib

set_option maxRecDepth 100000

/-!
Verification development for the Ultimate LoRA Photo Generator
(`src/App.tsx`, `src/services/geminiService.ts`, `src/types.ts`).

Shallow embedding conventions:
* JavaScript strings are modelled as `List Char` (`Str`); `String.prototype.includes`
  becomes list-infix, `toLowerCase` maps `Char.toLower`, `split('.')`/`join('.')`
  become `List.splitOn` / `List.intercalate`.
* The `Set<string>` of selected pose ids becomes a `Finset (List Char)`.
* The external synthesis provider (`@google/genai`) is an oracle: per call index it
  yields either a raw response object or a thrown error message; the response
  handling of `GeminiService.generateCharacterImage` is embedded faithfully.
* The pose catalog `POSE_DEFINITIONS` and the wardrobe / expression draws live in
  a `Config` record: the catalog file is external data and the draws are random,
  so both are parameters of every theorem.
* The cooperative cancellation flag (`isAbortedRef`) can be set by the user at any
  `await` boundary: `stopBefore i` models a stop request arriving before the loop's
  abort check of iteration `i`, `stopDuring i` one arriving while the synthesis call
  of iteration `i` is in flight.
* `AppState` carries, besides the program state, instrumentation fields (`calls`,
  `attemptLog`, `createdImages`) that record the history of a batch run; they are
  write-only and are used solely to state temporal properties.
-/

namespace ULPG

/-- JavaScript strings, modelled as lists of characters. -/
abbrev Str := List Char

/-- `s.includes(pat)` on JavaScript strings. -/
def jsIncludes (s pat : Str) : Bool :=
  decide (pat <:+: s)

/-- `s.toLowerCase()`. -/
def jsToLower (s : Str) : Str :=
  s.map Char.toLower

/-- `s.trim()`. -/
def jsTrim (s : Str) : Str :=
  ((s.dropWhile Char.isWhitespace).reverse.dropWhile Char.isWhitespace).reverse

/-- Truthiness of a `string | null` JavaScript value: `null` and `""` are falsy. -/
def jsTruthyOptStr : Option Str → Bool
  | none => false
  | some s => !s.isEmpty

/-- `DatasetGroup` from `src/types.ts`. -/
inductive DatasetGroup where
  | portrait
  | upper
  | full
deriving DecidableEq

/-- `DatasetPose` from `src/types.ts` (an entry of the pose catalog). -/
structure DatasetPose where
  id : Str
  label : Str
  group : DatasetGroup
  description : Str
deriving DecidableEq

/-- `GeneratedImage` from `src/types.ts`. -/
structure GeneratedImage where
  id : Str
  url : Str
  prompt : Str
  timestamp : Nat
  group : Option DatasetGroup
deriving DecidableEq

/-- `FailedAsset` from `src/App.tsx`. -/
structure FailedAsset where
  id : Str
  label : Str
  message : Str
  prompt : Str
  timestamp : Nat
deriving DecidableEq

/-- The task status union of `GenerationTask` from `src/types.ts`. -/
inductive TaskStatus where
  | pending
  | generating
  | completed
  | failed
  | stopped
deriving DecidableEq

/-- `GenerationTask` from `src/types.ts`. -/
structure GenerationTask where
  status : TaskStatus
  total : Nat
  current : Nat
  images : List GeneratedImage
  error : Option Str
deriving DecidableEq

/-- `CharacterAdjustments` from `src/types.ts`. -/
structure CharacterAdjustments where
  eyeColor : Str
  bodyBuild : Str
  chestSize : Str
  hipSize : Str
deriving DecidableEq

/-- The `ProfileMode` union type of `src/App.tsx`. -/
inductive ProfileMode where
  | auto
  | manual
deriving DecidableEq

/-- A part of a provider response (`part.inlineData?.data`). -/
structure ResponsePart where
  inlineData : Option Str
deriving DecidableEq

/-- `candidate.content` of a provider response. -/
structure CandContent where
  parts : Option (List ResponsePart)
deriving DecidableEq

/-- A candidate of a provider response. -/
structure ResponseCandidate where
  content : Option CandContent
deriving DecidableEq

/-- A raw provider response (`response.candidates`). -/
structure GenResponse where
  candidates : Option (List ResponseCandidate)
deriving DecidableEq

/-- What the external provider does on one call: return a response object or
throw an error with the given message. -/
inductive ProviderResult where
  | ok (resp : GenResponse)
  | err (message : Str)

/-- `geminiService.ts` lines 44/106: the catch block replaces a provider error
whose message includes "Requested entity was not found" by `API_KEY_EXPIRED`. -/
def mapProviderError (msg : Str) : Str :=
  if jsIncludes msg ("Requested entity was not found".toList) then
    "API_KEY_EXPIRED".toList
  else msg

/-- Scan `candidate.content.parts` for the first part with inline data
(`geminiService.ts` lines 98-102). -/
def findInlinePart : List ResponsePart → Option Str
  | [] => none
  | p :: rest =>
    match p.inlineData with
    | some d => some d
    | none => findInlinePart rest

/-- The body of the `try` block of `GeminiService.generateCharacterImage`
(`geminiService.ts` lines 65-104), given the provider outcome. -/
def generateCharacterImageRaw (pr : ProviderResult) : Except Str Str :=
  match pr with
  | ProviderResult.err m => Except.error m
  | ProviderResult.ok resp =>
    match resp.candidates with
    | none => Except.error ("The model did not return any candidates.".toList)
    | some cands =>
      if cands.isEmpty then
        Except.error ("The model did not return any candidates.".toList)
      else
        match cands.head? with
        | none => Except.error ("The model did not return any candidates.".toList)
        | some cand =>
          let parts := match cand.content with
            | none => none
            | some ct => ct.parts
          match parts with
          | none => Except.error ("Generation blocked by safety filters or empty response.".toList)
          | some ps =>
            if ps.isEmpty then
              Except.error ("Generation blocked by safety filters or empty response.".toList)
            else
              match findInlinePart ps with
              | some d => Except.ok ("data:image/png;base64,".toList ++ d)
              | none => Except.error ("No image data found in the response parts.".toList)

/-- `GeminiService.generateCharacterImage`: the `try` body with the `catch`
clause applied to every escaping error (`geminiService.ts` lines 105-110). -/
def generateCharacterImage (pr : ProviderResult) : Except Str Str :=
  match generateCharacterImageRaw pr with
  | Except.error m => Except.error (mapProviderError m)
  | Except.ok u => Except.ok u

/-- `App.tsx` line 349: an error is fatal iff its message includes "401" or
equals `API_KEY_EXPIRED`. -/
def isFatalMessage (m : Str) : Bool :=
  jsIncludes m ("401".toList) || decide (m = "API_KEY_EXPIRED".toList)

/-- The inputs of a batch run that the loop never mutates: the pose catalog,
the provider oracle, the stop-request schedule, the random wardrobe and
expression draws, and the profile / lock settings read from component state. -/
structure Config where
  catalog : List DatasetPose
  provider : Nat → ProviderResult
  stopBefore : Nat → Bool
  stopDuring : Nat → Bool
  clothingAt : Nat → Str
  expressionAt : Nat → Str
  sourceImage : Option Str
  profileMode : ProfileMode
  characterProfile : Option Str
  manualCharacterProfile : Str
  adjustments : CharacterAdjustments
  isHairLocked : Bool
  isBodyLocked : Bool

/-- The mutable component state a batch run touches, plus instrumentation:
`calls` counts synthesis invocations, `attemptLog` records each attempted pose
with its outcome, `createdImages` records successful images chronologically. -/
structure AppState where
  task : GenerationTask
  gallery : List GeneratedImage
  failedAssets : List FailedAsset
  selectedPoseIds : Finset Str
  isKeyConfirmed : Bool
  isAborted : Bool
  now : Nat
  calls : Nat
  attemptLog : List (DatasetPose × Bool)
  createdImages : List GeneratedImage

/-- `getActiveProfile` (`App.tsx` lines 76-82). -/
def getActiveProfile (cfg : Config) : Option Str :=
  match cfg.profileMode with
  | ProfileMode.auto => cfg.characterProfile
  | ProfileMode.manual =>
    let t := jsTrim cfg.manualCharacterProfile
    if t.isEmpty then none else some t

/-- `isProfileReady` (`App.tsx` lines 85-91). -/
def isProfileReady (cfg : Config) : Bool :=
  match cfg.profileMode with
  | ProfileMode.auto => jsTruthyOptStr cfg.characterProfile
  | ProfileMode.manual => decide (0 < (jsTrim cfg.manualCharacterProfile).length)

/-- The regex match `profile.match(/HAIR:\s*([^.]+)/i)?.[1]` (`App.tsx` line 169):
find the first occurrence of `HAIR:` (case-insensitively); the capture is the
maximal period-free run after the maximal whitespace run, falling back (by
regex backtracking) to the last whitespace character when that run is empty. -/
def hairCapture : Str → Option Str
  | [] => none
  | c :: rest =>
    if jsToLower (List.take 5 (c :: rest)) = ("hair:".toList) then
      let after := List.drop 5 (c :: rest)
      let w := after.takeWhile Char.isWhitespace
      let r := (after.drop w.length).takeWhile (fun ch => ch ≠ '.')
      if !r.isEmpty then some r
      else if !w.isEmpty then some [w.getLastD ' ']
      else hairCapture rest
    else hairCapture rest

/-- One sentence fragment of the identity profile carries body-shape language
(`App.tsx` line 173). -/
def bannedFragment (s : Str) : Bool :=
  jsIncludes (jsToLower s) ("body build".toList) ||
  jsIncludes (jsToLower s) ("proportion".toList) ||
  jsIncludes (jsToLower s) ("waist".toList)

/-- The portrait stripping of the identity profile (`App.tsx` lines 171-175):
split on periods, drop body-shape fragments, rejoin with periods. -/
def portraitFilter (p : Str) : Str :=
  List.intercalate ['.'] ((List.splitOn '.' p).filter (fun s => !bannedFragment s))

/-- `getLockedIdentityMod` (`App.tsx` lines 164-196). -/
def getLockedIdentityMod (cfg : Config) (isPortrait isSideProfile : Bool) : Str :=
  match getActiveProfile cfg with
  | none => []
  | some profile0 =>
    if profile0.isEmpty then []
    else
      let hairPart := (hairCapture profile0).getD []
      let profile := if isPortrait then portraitFilter profile0 else profile0
      let poseConstraint :=
        if isSideProfile then
          "CRITICAL: Ignore reference orientation; force profile specified in TARGET POSE.".toList
        else
          "Preserve identity features and facial structure exactly.".toList
      let base := "IDENTITY CONSTRAINTS: ".toList ++ poseConstraint ++
        " Eyes: ".toList ++ cfg.adjustments.eyeColor ++ ". Profile: ".toList ++ profile ++ ".".toList
      let base :=
        if cfg.isHairLocked && !hairPart.isEmpty then
          base ++ " MANDATORY HAIR CONSISTENCY: ".toList ++ hairPart ++
            ". DO NOT ALTER LENGTH OR STYLE.".toList
        else base
      if isPortrait then base
      else if cfg.isBodyLocked then
        base ++ " Keep the exact original body build and proportions from reference image.".toList
      else
        base ++ " Targeted Build: ".toList ++ cfg.adjustments.bodyBuild ++
          ", Chest: ".toList ++ cfg.adjustments.chestSize ++
          ", Hips: ".toList ++ cfg.adjustments.hipSize ++ ".".toList

/-- The orientation directive built from the keyword flags
(`App.tsx` lines 280-317). -/
def directionClause (isRear isOverShoulder isLeft isRight isProf is45
    hasFrontal hasCenter hasBehind : Bool) : Str :=
  let isFrontal := (hasFrontal || (hasCenter && !hasBehind)) && !isLeft && !isRight && !isRear
  if isRear || is45 || isProf || isLeft || isRight then
    let base := "CRITICAL: SHOT ORIENTATION — ".toList
    let base :=
      if isRear then
        let b := base ++ "Rear view. Subject is facing away from camera. ".toList
        let b := if isLeft then
            b ++ "Camera positioned behind and to the right — seeing back of head and left side only. ".toList
          else b
        if isRight then
          b ++ "Camera positioned behind and to the left — seeing back of head and right side only. ".toList
        else b
      else if isProf then
        let b := base ++ "Strict 90-degree side profile. ".toList
        let b := if isLeft then b ++ "Facing screen-left. Only left profile visible. ".toList else b
        if isRight then b ++ "Facing screen-right. Only right profile visible. ".toList else b
      else if is45 || isLeft || isRight then
        let b := base ++ "Angled orientation. ".toList
        let b := if isLeft then b ++ "Subject facing screen-left. ".toList else b
        if isRight then b ++ "Subject facing screen-right. ".toList else b
      else base
    let base :=
      if isOverShoulder then
        base ++ "Subject is looking back at the camera over their shoulder, but primary body orientation is maintained. ".toList
      else base
    base ++ "ABSOLUTELY NO FULL FRONTAL FACE. DO NOT TURN SUBJECT TOWARD CAMERA.".toList
  else if isFrontal then
    "Direct frontal view. Subject looking straight into camera with both eyes fully visible and centered.".toList
  else []

/-- The keyword scan feeding `directionClause` (`App.tsx` lines 282-289),
over the lowercased pose description. -/
def directionModOf (descLower : Str) : Str :=
  directionClause
    (jsIncludes descLower ("rear".toList) || jsIncludes descLower ("behind".toList) ||
      jsIncludes descLower ("back view".toList) || jsIncludes descLower ("view from behind".toList))
    (jsIncludes descLower ("looking back at camera".toList))
    (jsIncludes descLower ("left".toList))
    (jsIncludes descLower ("right".toList))
    (jsIncludes descLower ("90".toList) || jsIncludes descLower ("profile".toList))
    (jsIncludes descLower ("45".toList))
    (jsIncludes descLower ("frontal".toList))
    (jsIncludes descLower ("center".toList))
    (jsIncludes descLower ("behind".toList))

/-- The expression keyword list (`App.tsx` lines 263-268); the duplicate
entry of the source is kept. -/
def expressionKeywords : List Str :=
  (["smile", "smirk", "laugh", "teeth", "wink", "gaze",
    "thoughtful", "serene", "nose", "lip", "joy", "fear",
    "anxious", "vulnerable", "stern", "desperate", "exhaustion",
    "serene", "concentrated", "neutral", "stoic", "pensive", "rembrandt"
    ] : List String).map String.toList

/-- The aspect ratio chosen per pose (`App.tsx` line 277). -/
def aspectRatioOf (pose : DatasetPose) : Str :=
  if pose.group = DatasetGroup.full then "3:4".toList else "1:1".toList

/-- The full synthesis prompt of iteration `i` for `pose`
(`App.tsx` lines 257-323). -/
def composePrompt (cfg : Config) (i : Nat) (pose : DatasetPose) : Str :=
  let isPortrait := decide (pose.group = DatasetGroup.portrait)
  let descLower := jsToLower pose.description
  let isSideProfile := jsIncludes descLower ("90-degree".toList) || jsIncludes descLower ("profile".toList)
  let identityMod := getLockedIdentityMod cfg isPortrait isSideProfile
  let clothing := cfg.clothingAt i
  let hasExpressionInPose := expressionKeywords.any (fun kw => jsIncludes descLower kw)
  let expression :=
    if hasExpressionInPose then []
    else if isPortrait || decide (pose.group = DatasetGroup.upper) then cfg.expressionAt i
    else "neutral gaze".toList
  let directionMod := directionModOf descLower
  let framingMod :=
    if isPortrait then
      "85mm lens, Tight headshot, shoulder-up framing only, clear facial features, bokeh studio background.".toList
    else
      "Professional framing, standard lens.".toList
  "DATASET PRODUCTION. ".toList ++
    (if directionMod.isEmpty then [] else directionMod ++ " ".toList) ++
    "TARGET POSE: ".toList ++ pose.description ++ ". COMPOSITION: ".toList ++ framingMod ++ ". ".toList ++
    (if expression.isEmpty then [] else "EXPRESSION: ".toList ++ expression ++ ". ".toList) ++
    "CLOTHING: ".toList ++ clothing ++ ". ".toList ++ identityMod ++
    ". ENVIRONMENT: Professional neutral high-key studio, seamless gray backdrop. 8k resolution, high detail.".toList

/-- `stopGeneration` (`App.tsx` lines 154-157): set the cooperative flag and
immediately mark the task stopped. -/
def stopGeneration (s : AppState) : AppState :=
  { s with isAborted := true, task := { s.task with status := TaskStatus.stopped } }

/-- The `GeneratedImage` built on synthesis success (`App.tsx` lines 328-334),
with `Date.now()` modelled by the state clock `now`. -/
def mkImage (s : AppState) (pose : DatasetPose) (prompt url : Str) : GeneratedImage :=
  { id := "dataset-".toList ++ (toString s.now).toList ++ "-".toList ++ pose.id
    url := url
    prompt := prompt
    timestamp := s.now
    group := some pose.group }

/-- The success handler of one loop iteration (`App.tsx` lines 328-347):
delete the pose id from the selection set, prepend the image to the gallery
and to the task image list, increment `current`. -/
def onSuccess (s : AppState) (pose : DatasetPose) (prompt url : Str) : AppState :=
  let img := mkImage s pose prompt url
  { s with
    selectedPoseIds := s.selectedPoseIds.erase pose.id
    gallery := img :: s.gallery
    task := { s.task with current := s.task.current + 1, images := img :: s.task.images }
    now := s.now + 1
    attemptLog := s.attemptLog ++ [(pose, true)]
    createdImages := s.createdImages ++ [img] }

/-- The non-fatal failure handler of one loop iteration
(`App.tsx` lines 355-363): prepend a `FailedAsset`, increment `current`. -/
def onNonfatal (s : AppState) (pose : DatasetPose) (prompt msg : Str) : AppState :=
  { s with
    failedAssets :=
      { id := "failed-".toList ++ (toString s.now).toList ++ "-".toList ++ pose.id
        label := pose.label
        message := msg
        prompt := prompt
        timestamp := s.now } :: s.failedAssets
    task := { s.task with current := s.task.current + 1 }
    now := s.now + 1
    attemptLog := s.attemptLog ++ [(pose, false)] }

/-- The fatal failure handler (`App.tsx` lines 349-353): drop the key
confirmation, record the error and mark the task failed; the batch returns. -/
def onFatal (s : AppState) (pose : DatasetPose) (msg : Str) : AppState :=
  { s with
    isKeyConfirmed := false
    task := { s.task with error := some msg, status := TaskStatus.failed }
    attemptLog := s.attemptLog ++ [(pose, false)] }

/-- The state observed right after the synthesis call of iteration `i`
returned: a mid-call stop request may have set the flag and the stopped
status; the instrumentation call counter ticks. -/
def midState (cfg : Config) (i : Nat) (s : AppState) : AppState :=
  { (if cfg.stopDuring i then stopGeneration s else s) with calls := s.calls + 1 }

/-- The `for (const pose of selectedPoses)` loop of `startDatasetMode`
(`App.tsx` lines 254-366), including the trailing
`if (!isAbortedRef.current) setTask(... completed)`. Returns the list of
observable states (the boundary state after a possible stop request and the
in-flight state after a possible mid-call stop request, per iteration) and
the final state. `i` is the iteration counter indexing the provider oracle,
the draws and the stop schedule. -/
def runLoop (cfg : Config) : Nat → List DatasetPose → AppState → List AppState × AppState
  | i, [], s =>
    let s1 := if cfg.stopBefore i then stopGeneration s else s
    if s1.isAborted then ([s1], s1)
    else ([s1], { s1 with task := { s1.task with status := TaskStatus.completed } })
  | i, pose :: rest, s =>
    let s1 := if cfg.stopBefore i then stopGeneration s else s
    if s1.isAborted then ([s1], s1)
    else
      let prompt := composePrompt cfg i pose
      let s2 := midState cfg i s1
      match generateCharacterImage (cfg.provider i) with
      | Except.ok url =>
        let s3 := onSuccess s2 pose prompt url
        (s1 :: s2 :: (runLoop cfg (i + 1) rest s3).1, (runLoop cfg (i + 1) rest s3).2)
      | Except.error msg =>
        if isFatalMessage msg then
          ([s1, s2], onFatal s2 pose msg)
        else
          let s3 := onNonfatal s2 pose prompt msg
          (s1 :: s2 :: (runLoop cfg (i + 1) rest s3).1, (runLoop cfg (i + 1) rest s3).2)

/-- The precondition guard of `startDatasetMode` (`App.tsx` line 246). -/
def startPrecondFails (cfg : Config) (s : AppState) : Bool :=
  !jsTruthyOptStr cfg.sourceImage || !isProfileReady cfg || !s.isKeyConfirmed ||
    decide (s.selectedPoseIds.card = 0)

/-- The pose catalog filtered to the selected ids, in catalog order
(`App.tsx` line 252). -/
def selPoses (cfg : Config) (s : AppState) : List DatasetPose :=
  cfg.catalog.filter (fun p => decide (p.id ∈ s.selectedPoseIds))

/-- The state set up at batch start (`App.tsx` lines 247-250): abort flag
cleared, fresh generating task, failed assets cleared; the instrumentation
fields are reset as well. -/
def initState (s : AppState) : AppState :=
  { s with
    isAborted := false
    task :=
      { status := TaskStatus.generating
        total := s.selectedPoseIds.card
        current := 0
        images := []
        error := none }
    failedAssets := []
    calls := 0
    attemptLog := []
    createdImages := [] }

/-- `startDatasetMode` (`App.tsx` lines 245-367), returning the observable
state trace of the run together with the final state. When the precondition
guard fires the call is a no-op with an empty trace. -/
def startDatasetModeT (cfg : Config) (s : AppState) : List AppState × AppState :=
  if startPrecondFails cfg s then ([], s)
  else runLoop cfg 0 (selPoses cfg s) (initState s)

/-- The final state of a batch run. -/
def startDatasetMode (cfg : Config) (s : AppState) : AppState :=
  (startDatasetModeT cfg s).2

/-- The terminal task statuses (`completed`, `failed`, `stopped`). -/
def isTerminalStatus : TaskStatus → Bool
  | TaskStatus.completed => true
  | TaskStatus.failed => true
  | TaskStatus.stopped => true
  | _ => false

/-- The progress invariant of a batch run: `current` counts the processed
poses (one image per success, one failed asset per non-fatal failure),
`images.length` counts the successful attempts, and `current` never exceeds
`total`. -/
def TaskInv (t : AppState) : Prop :=
  t.task.current = t.task.images.length + t.failedAssets.length ∧
  t.task.images.length = (t.attemptLog.filter (fun q => q.2)).length ∧
  t.task.current ≤ t.task.total

/-- The pose ids of the successful entries of an attempt log. -/
def successIds (a : List (DatasetPose × Bool)) : List Str :=
  (a.filter (fun q => q.2)).map (fun q => q.1.id)

/-! Concrete instances used by witnesses and counterexamples. -/

/-- A neutral adjustments record. -/
def adjA : CharacterAdjustments :=
  { eyeColor := "Brown".toList
    bodyBuild := "Average".toList
    chestSize := "Average".toList
    hipSize := "Average".toList }

/-- A provider response carrying one inline image payload `u1`. -/
def respOkA : GenResponse :=
  { candidates := some [{ content := some { parts := some [{ inlineData := some ("u1".toList) }] } }] }

/-- A provider response carrying one inline image payload `u2`. -/
def respOkB : GenResponse :=
  { candidates := some [{ content := some { parts := some [{ inlineData := some ("u2".toList) }] } }] }

/-- A provider response with an empty candidate list (`NoCandidates`). -/
def respEmpty : GenResponse :=
  { candidates := some [] }

/-- A concrete upper-body pose. -/
def poseA : DatasetPose :=
  { id := "p1".toList
    label := "Pose One".toList
    group := DatasetGroup.upper
    description := "standing".toList }

/-- A concrete portrait pose. -/
def poseP : DatasetPose :=
  { id := "c7p".toList
    label := "Head Shot".toList
    group := DatasetGroup.portrait
    description := "head shot".toList }

/-- Five concrete poses with distinct ids. -/
def poseN (k : Nat) : DatasetPose :=
  { id := 'q' :: (toString k).toList
    label := "Pose ".toList ++ (toString k).toList
    group := DatasetGroup.upper
    description := "standing".toList }

/-- A baseline configuration: one pose, always-successful provider, no stop
requests, manual profile. -/
def cfgA : Config :=
  { catalog := [poseA]
    provider := fun _ => ProviderResult.ok respOkA
    stopBefore := fun _ => false
    stopDuring := fun _ => false
    clothingAt := fun _ => "gray t-shirt".toList
    expressionAt := fun _ => "soft smile".toList
    sourceImage := some ("img".toList)
    profileMode := ProfileMode.manual
    characterProfile := none
    manualCharacterProfile := "HAIR: short brown hair. FACE: oval.".toList
    adjustments := adjA
    isHairLocked := true
    isBodyLocked := false }

/-- The baseline pre-batch state selecting the single pose of `cfgA`. -/
def sA : AppState :=
  { task := { status := TaskStatus.pending, total := 0, current := 0, images := [], error := none }
    gallery := []
    failedAssets := []
    selectedPoseIds := { "p1".toList }
    isKeyConfirmed := true
    isAborted := false
    now := 0
    calls := 0
    attemptLog := []
    createdImages := [] }

/-- `cfgA` with a whitespace-only manual profile text. -/
def cfgWS : Config :=
  { cfgA with manualCharacterProfile := "  ".toList }

/-- `cfgA` with a provider that always fails with a 401 message. -/
def cfgF : Config :=
  { cfgA with provider := fun _ => ProviderResult.err ("Request failed: 401 unauthorized".toList) }

/-- `cfgA` with a stop request arriving while the first synthesis call is in
flight. -/
def cfgD : Config :=
  { cfgA with stopDuring := fun i => decide (i = 0) }

/-- A two-pose configuration whose provider returns distinct payloads per call. -/
def cfgE : Config :=
  { cfgA with
    catalog := [poseA, { poseA with id := "p2".toList, label := "Pose Two".toList }]
    provider := fun i => if i = 0 then ProviderResult.ok respOkA else ProviderResult.ok respOkB }

/-- The pre-batch state selecting both poses of `cfgE`. -/
def sE : AppState :=
  { sA with selectedPoseIds := { "p1".toList, "p2".toList } }

/-- A five-pose catalog configuration. -/
def cfg5 : Config :=
  { cfgA with catalog := [poseN 1, poseN 2, poseN 3, poseN 4, poseN 5] }

/-- The pre-batch state selecting all five poses of `cfg5`. -/
def s5 : AppState :=
  { sA with
    selectedPoseIds :=
      { (poseN 1).id, (poseN 2).id, (poseN 3).id, (poseN 4).id, (poseN 5).id } }

/-- `cfg5` with a stop request at the boundary before the third pose. -/
def cfg5Stop : Config :=
  { cfg5 with stopBefore := fun i => decide (i = 2) }

/-- `cfg5` with a `NoCandidates` provider response on the third call. -/
def cfg5Fail : Config :=
  { cfg5 with
    provider := fun i => if i = 2 then ProviderResult.ok respEmpty else ProviderResult.ok respOkA }

/-- `cfgA` with an identity profile whose hair fragment mentions the waist. -/
def cfgC7 : Config :=
  { cfgA with
    catalog := [poseP]
    manualCharacterProfile := "HAIR: waist hair. FACE: oval".toList }

/-! Helper lemmas about substring search. -/

lemma jsIncludes_eq_true {s pat : Str} : jsIncludes s pat = true ↔ pat <:+: s := by
  simp [jsIncludes]

lemma prefix_of_append_cons {α : Type} {w l₁ l₂ : List α} {c : α} (hw : c ∉ w)
    (h : w <+: l₁ ++ c :: l₂) : w <+: l₁ := by
  rcases List.prefix_or_prefix_of_prefix h (List.prefix_append l₁ (c :: l₂)) with h' | h'
  · exact h'
  · obtain ⟨u, rfl⟩ := h'
    have hu : u <+: c :: l₂ := (List.prefix_append_right_inj l₁).mp h
    cases u with
    | nil => simp
    | cons d u' =>
      rw [List.cons_prefix_cons] at hu
      exact absurd (List.mem_append_right l₁ (hu.1 ▸ List.mem_cons_self d u')) hw

lemma infix_of_append_cons {α : Type} {w l₂ : List α} {c : α} (hw : c ∉ w) :
    ∀ {l₁ : List α}, w <:+: l₁ ++ c :: l₂ → w <:+: l₁ ∨ w <:+: l₂ := by
  intro l₁
  induction l₁ with
  | nil =>
    intro h
    rw [List.nil_append, List.infix_cons_iff] at h
    rcases h with h | h
    · cases w with
      | nil => exact Or.inl (List.nil_infix)
      | cons d w' =>
        rw [List.cons_prefix_cons] at h
        exact absurd (h.1 ▸ List.mem_cons_self d w') hw
    · exact Or.inr h
  | cons a l₁' ih =>
    intro h
    rw [List.cons_append, List.infix_cons_iff] at h
    rcases h with h | h
    · rw [← List.cons_append] at h
      exact Or.inl ( List.IsPrefix.isInfix (prefix_of_append_cons hw h))
    · rcases ih h with h' | h'
      · exact Or.inl ( List.infix_cons h')
      · exact Or.inr h'

lemma intercalate_cons_cons {α : Type} (c : α) (a b : List α) (rest : List (List α)) :
    List.intercalate [c] (a :: b :: rest) = a ++ c :: List.intercalate [c] (b :: rest) := by
  simp [List.intercalate, List.intersperse]

lemma intercalate_singleton {α : Type} (c : α) (a : List α) :
    List.intercalate [c] [a] = a := by
  simp [List.intercalate, List.intersperse]

lemma infix_intercalate_mem {α : Type} {w : List α} {c : α} (hw : w ≠ []) (hc : c ∉ w) :
    ∀ {parts : List (List α)}, w <:+: List.intercalate [c] parts → ∃ l ∈ parts, w <:+: l := by
  intro parts
  induction parts with
  | nil =>
    intro h
    rw [show List.intercalate [c] ([] : List (List α)) = [] from rfl, List.infix_nil] at h
    exact absurd h hw
  | cons a rest ih =>
    cases rest with
    | nil =>
      intro h
      rw [intercalate_singleton] at h
      exact ⟨a, List.mem_singleton.mpr rfl, h⟩
    | cons b rest' =>
      intro h
      rw [intercalate_cons_cons] at h
      rcases infix_of_append_cons hc h with h' | h'
      · exact ⟨a, List.mem_cons_self a _, h'⟩
      · obtain ⟨l, hl, hwl⟩ := ih h'
        exact ⟨l, List.mem_cons_of_mem a hl, hwl⟩

lemma map_intercalate {α β : Type} (f : α → β) (c : α) :
    ∀ parts : List (List α),
      List.map f (List.intercalate [c] parts) =
        List.intercalate [f c] (parts.map (List.map f)) := by
  intro parts
  induction parts with
  | nil => rfl
  | cons a rest ih =>
    cases rest with
    | nil => simp [intercalate_singleton]
    | cons b rest' =>
      simp only [List.map_cons, intercalate_cons_cons, List.map_append, ih]

lemma portraitFilter_excludes {p w : Str} (hw : w ≠ []) (hc : '.' ∉ w)
    (hfr : ∀ s ∈ (List.splitOn '.' p).filter (fun s => !bannedFragment s),
      jsIncludes (jsToLower s) w = false) :
    jsIncludes (jsToLower (portraitFilter p)) w = false := by
  by_contra hcon
  simp only [Bool.not_eq_false] at hcon
  have hinf : w <:+: jsToLower (portraitFilter p) := jsIncludes_eq_true.mp hcon
  unfold portraitFilter jsToLower at hinf
  rw [map_intercalate, show Char.toLower '.' = '.' from by decide] at hinf
  obtain ⟨l, hl, hwl⟩ := infix_intercalate_mem hw hc hinf
  obtain ⟨frag, hfrag, rfl⟩ := List.mem_map.mp hl
  have hf := hfr frag hfrag
  have hwl' : w <:+: jsToLower frag := hwl
  have htrue : jsIncludes (jsToLower frag) w = true := jsIncludes_eq_true.mpr hwl'
  rw [hf] at htrue
  exact Bool.false_ne_true htrue

/-- C7 counterexample: for a portrait pose and an identity profile whose
`HAIR:` fragment mentions the waist, the composed prompt does contain the
word "waist" (and the hair fragment itself), because the hair-consistency
clause is extracted from the profile before the portrait filtering. -/
theorem c7_cex :
    decide (poseP.group = DatasetGroup.portrait) = true ∧
    cfgC7.isHairLocked = true ∧
    jsIncludes (jsToLower (composePrompt cfgC7 0 poseP)) ("waist".toList) = true ∧
    jsIncludes (composePrompt cfgC7 0 poseP) ("waist hair".toList) = true := by
  decide

/-- C7 (amended): for portrait poses, every sentence fragment of the identity
profile whose lowercase form contains "body build", "proportion" or "waist" is
stripped from the `Profile:` section of the identity clause — the filtered,
rejoined profile string contains none of these words; the composed prompt may
still contain one only through the separately extracted hair-consistency
fragment (or the adjustment settings). -/
theorem c7 (p : Str) :
    jsIncludes (jsToLower (portraitFilter p)) ("body build".toList) = false ∧
    jsIncludes (jsToLower (portraitFilter p)) ("proportion".toList) = false ∧
    jsIncludes (jsToLower (portraitFilter p)) ("waist".toList) = false := by
  refine ⟨portraitFilter_excludes (by decide) (by decide) ?_,
          portraitFilter_excludes (by decide) (by decide) ?_,
          portraitFilter_excludes (by decide) (by decide) ?_⟩
  all_goals
    intro s hs
    rw [List.mem_filter] at hs
    have hb := hs.2
    simp only [Bool.not_eq_true', Bool.or_eq_false_iff, bannedFragment] at hb
    first
      | exact hb.1.1
      | exact hb.1.2
      | exact hb.2

/-- C6 counterexample: for the pose description "rear left", the composed
orientation clause contains no qualifier mentioning the right side being
visible; it says the camera is behind and to the right but that only the
left side is seen. -/
theorem c6_cex :
    jsIncludes (directionModOf (jsToLower ("rear left".toList))) ("right side".toList) = false ∧
    jsIncludes (directionModOf (jsToLower ("rear left".toList))) ("left side only".toList) = true ∧
    jsIncludes (directionModOf (jsToLower ("rear left".toList))) ("behind and to the right".toList) = true ∧
    jsIncludes (directionModOf (jsToLower ("rear left".toList))) ("facing away from camera".toList) = true := by
  decide

/-- C6 (amended): for every pose whose description contains "rear" and "left"
(case-insensitively), the composed orientation clause contains the rear-view
directive (subject facing away from camera) and the qualifier placing the
camera behind and to the right with the left side (not the right side)
visible. -/
theorem c6 (desc : Str)
    (h1 : jsIncludes (jsToLower desc) ("rear".toList) = true)
    (h2 : jsIncludes (jsToLower desc) ("left".toList) = true) :
    jsIncludes (directionModOf (jsToLower desc))
      ("Rear view. Subject is facing away from camera.".toList) = true ∧
    jsIncludes (directionModOf (jsToLower desc))
      ("Camera positioned behind and to the right — seeing back of head and left side only.".toList) = true := by
  unfold directionModOf directionClause
  rw [h1, h2]
  cases hr : jsIncludes (jsToLower desc) ("right".toList) <;>
    cases ho : jsIncludes (jsToLower desc) ("looking back at camera".toList) <;>
      simp only [hr, ho, Bool.true_or, Bool.or_true, Bool.false_or, Bool.or_false,
        if_true, ite_true, ite_false, Bool.false_eq_true, if_false] <;>
      exact ⟨by decide, by decide⟩

/-- C6 witness: the amended C6 instantiated at the description "rear left". -/
theorem c6_witness :
    jsIncludes (directionModOf (jsToLower ("rear left".toList)))
      ("Rear view. Subject is facing away from camera.".toList) = true ∧
    jsIncludes (directionModOf (jsToLower ("rear left".toList)))
      ("Camera positioned behind and to the right — seeing back of head and left side only.".toList) = true :=
  c6 ("rear left".toList) (by decide) (by decide)

/-- C10: if any precondition fails — no reference image, unresolved identity
profile (in particular a whitespace-only manual profile makes `isProfileReady`
false), missing authorization, or an empty selection — the batch-run call is a
no-op leaving the whole state unchanged. -/
theorem c10 :
    (∀ cfg : Config, cfg.profileMode = ProfileMode.manual →
      (∀ c ∈ cfg.manualCharacterProfile, c.isWhitespace = true) →
      isProfileReady cfg = false) ∧
    (∀ (cfg : Config) (s : AppState),
      jsTruthyOptStr cfg.sourceImage = false ∨ isProfileReady cfg = false ∨
        s.isKeyConfirmed = false ∨ s.selectedPoseIds.card = 0 →
      startDatasetModeT cfg s = ([], s)) := by
  constructor
  · intro cfg hmode hws
    have h1 : List.dropWhile Char.isWhitespace cfg.manualCharacterProfile = [] :=
      List.dropWhile_eq_nil_iff.mpr hws
    have htrim : jsTrim cfg.manualCharacterProfile = [] := by
      simp [jsTrim, h1]
    simp [isProfileReady, hmode, htrim]
  · intro cfg s h
    have hp : startPrecondFails cfg s = true := by
      unfold startPrecondFails
      rcases h with h | h | h | h <;> simp [h]
    unfold startDatasetModeT
    rw [if_pos hp]

/-- C10 witness: with a whitespace-only manual profile, `isProfileReady` is
false and the batch run leaves the state untouched. -/
theorem c10_witness :
    isProfileReady cfgWS = false ∧ startDatasetModeT cfgWS sA = ([], sA) := by
  have h1 := c10.1 cfgWS (by decide) (by decide)
  exact ⟨h1, c10.2 cfgWS sA (Or.inr (Or.inl h1))⟩

/-! Unfolding lemmas for the batch loop. -/

lemma runLoop_stop_exit (cfg : Config) (i : Nat) (rest : List DatasetPose) (s : AppState)
    (hsb : cfg.stopBefore i = true) :
    runLoop cfg i rest s = ([stopGeneration s], stopGeneration s) := by
  cases rest <;> simp [runLoop, hsb, stopGeneration]

lemma runLoop_abort (cfg : Config) (i : Nat) (rest : List DatasetPose) (s : AppState)
    (hsb : cfg.stopBefore i = false) (hab : s.isAborted = true) :
    runLoop cfg i rest s = ([s], s) := by
  cases rest <;> simp [runLoop, hsb, hab]

lemma runLoop_nil_done (cfg : Config) (i : Nat) (s : AppState)
    (hsb : cfg.stopBefore i = false) (hab : s.isAborted = false) :
    runLoop cfg i [] s =
      ([s], { s with task := { s.task with status := TaskStatus.completed } }) := by
  simp [runLoop, hsb, hab]

lemma runLoop_cons_ok (cfg : Config) (i : Nat) (pose : DatasetPose) (rest : List DatasetPose)
    (s : AppState) (u : Str)
    (hsb : cfg.stopBefore i = false) (hab : s.isAborted = false)
    (hgen : generateCharacterImage (cfg.provider i) = Except.ok u) :
    runLoop cfg i (pose :: rest) s =
      (s :: midState cfg i s ::
        (runLoop cfg (i + 1) rest (onSuccess (midState cfg i s) pose (composePrompt cfg i pose) u)).1,
       (runLoop cfg (i + 1) rest (onSuccess (midState cfg i s) pose (composePrompt cfg i pose) u)).2) := by
  simp [runLoop, hsb, hab, hgen]

lemma runLoop_cons_fatal (cfg : Config) (i : Nat) (pose : DatasetPose) (rest : List DatasetPose)
    (s : AppState) (msg : Str)
    (hsb : cfg.stopBefore i = false) (hab : s.isAborted = false)
    (hgen : generateCharacterImage (cfg.provider i) = Except.error msg)
    (hf : isFatalMessage msg = true) :
    runLoop cfg i (pose :: rest) s =
      ([s, midState cfg i s], onFatal (midState cfg i s) pose msg) := by
  simp [runLoop, hsb, hab, hgen, hf]

lemma runLoop_cons_nonfatal (cfg : Config) (i : Nat) (pose : DatasetPose) (rest : List DatasetPose)
    (s : AppState) (msg : Str)
    (hsb : cfg.stopBefore i = false) (hab : s.isAborted = false)
    (hgen : generateCharacterImage (cfg.provider i) = Except.error msg)
    (hf : isFatalMessage msg = false) :
    runLoop cfg i (pose :: rest) s =
      (s :: midState cfg i s ::
        (runLoop cfg (i + 1) rest (onNonfatal (midState cfg i s) pose (composePrompt cfg i pose) msg)).1,
       (runLoop cfg (i + 1) rest (onNonfatal (midState cfg i s) pose (composePrompt cfg i pose) msg)).2) := by
  simp [runLoop, hsb, hab, hgen, hf]

lemma midState_taskInv (cfg : Config) (i : Nat) (s : AppState) (h : TaskInv s) :
    TaskInv (midState cfg i s) := by
  by_cases hsd : cfg.stopDuring i = true <;>
    simpa [TaskInv, midState, hsd, stopGeneration] using h

lemma midState_counters (cfg : Config) (i : Nat) (s : AppState) :
    (midState cfg i s).task.current = s.task.current ∧
    (midState cfg i s).task.total = s.task.total := by
  by_cases hsd : cfg.stopDuring i = true <;> simp [midState, hsd, stopGeneration]

lemma runLoop_inv (cfg : Config) :
    ∀ (rest : List DatasetPose) (i : Nat) (s : AppState),
      TaskInv s → s.task.current + rest.length ≤ s.task.total →
      ∀ t ∈ (runLoop cfg i rest s).1 ++ [(runLoop cfg i rest s).2], TaskInv t := by
  intro rest
  induction rest with
  | nil =>
    intro i s hInv hle t ht
    cases hsb : cfg.stopBefore i with
    | true =>
      rw [runLoop_stop_exit cfg i [] s hsb] at ht
      simp only [List.cons_append, List.nil_append, List.mem_cons, List.not_mem_nil,
        or_false, List.mem_singleton] at ht
      rcases ht with rfl | rfl <;> simpa [TaskInv, stopGeneration] using hInv
    | false =>
      cases hab : s.isAborted with
      | true =>
        rw [runLoop_abort cfg i [] s hsb hab] at ht
        simp only [List.cons_append, List.nil_append, List.mem_cons, List.not_mem_nil,
          or_false, List.mem_singleton] at ht
        rcases ht with rfl | rfl <;> exact hInv
      | false =>
        rw [runLoop_nil_done cfg i s hsb hab] at ht
        simp only [List.cons_append, List.nil_append, List.mem_cons, List.not_mem_nil,
          or_false, List.mem_singleton] at ht
        rcases ht with rfl | rfl
        · exact hInv
        · simpa [TaskInv] using hInv
  | cons pose rest ih =>
    intro i s hInv hle t ht
    cases hsb : cfg.stopBefore i with
    | true =>
      rw [runLoop_stop_exit cfg i _ s hsb] at ht
      simp only [List.cons_append, List.nil_append, List.mem_cons, List.not_mem_nil,
        or_false, List.mem_singleton] at ht
      rcases ht with rfl | rfl <;> simpa [TaskInv, stopGeneration] using hInv
    | false =>
      cases hab : s.isAborted with
      | true =>
        rw [runLoop_abort cfg i _ s hsb hab] at ht
        simp only [List.cons_append, List.nil_append, List.mem_cons, List.not_mem_nil,
          or_false, List.mem_singleton] at ht
        rcases ht with rfl | rfl <;> exact hInv
      | false =>
        have hmid : TaskInv (midState cfg i s) := midState_taskInv cfg i s hInv
        obtain ⟨hmc, hmt⟩ := midState_counters cfg i s
        obtain ⟨hi1, hi2, hi3⟩ := hmid
        cases hgen : generateCharacterImage (cfg.provider i) with
        | ok u =>
          rw [runLoop_cons_ok cfg i pose rest s u hsb hab hgen] at ht
          simp only [List.cons_append, List.mem_cons] at ht
          rcases ht with rfl | rfl | ht
          · exact hInv
          · exact ⟨hi1, hi2, hi3⟩
          · refine ih (i + 1) _ ?_ ?_ t ht
            · refine ⟨?_, ?_, ?_⟩
              · simp only [onSuccess]
                simp only [List.length_cons]
                omega
              · simp only [onSuccess, List.length_cons, List.filter_append]
                simp [hi2]
              · simp only [onSuccess]
                simp only [List.length_cons] at hle
                omega
            · simp only [onSuccess]
              simp only [List.length_cons] at hle ⊢
              omega
        | error msg =>
          cases hf : isFatalMessage msg with
          | true =>
            rw [runLoop_cons_fatal cfg i pose rest s msg hsb hab hgen hf] at ht
            simp only [List.cons_append, List.nil_append, List.mem_cons, List.not_mem_nil,
              or_false, List.mem_singleton] at ht
            rcases ht with rfl | rfl | rfl
            · exact hInv
            · exact ⟨hi1, hi2, hi3⟩
            · refine ⟨?_, ?_, ?_⟩
              · simpa [onFatal] using hi1
              · simp only [onFatal, List.filter_append]
                simp [hi2]
              · simpa [onFatal] using hi3
          | false =>
            rw [runLoop_cons_nonfatal cfg i pose rest s msg hsb hab hgen hf] at ht
            simp only [List.cons_append, List.mem_cons] at ht
            rcases ht with rfl | rfl | ht
            · exact hInv
            · exact ⟨hi1, hi2, hi3⟩
            · refine ih (i + 1) _ ?_ ?_ t ht
              · refine ⟨?_, ?_, ?_⟩
                · simp only [onNonfatal, List.length_cons]
                  omega
                · simp only [onNonfatal, List.filter_append]
                  simp [hi2]
                · simp only [onNonfatal]
                  simp only [List.length_cons] at hle
                  omega
              · simp only [onNonfatal]
                simp only [List.length_cons] at hle ⊢
                omega

lemma selPoses_id_nodup (cfg : Config) (s : AppState)
    (hids : (cfg.catalog.map DatasetPose.id).Nodup) :
    ((selPoses cfg s).map DatasetPose.id).Nodup :=
  List.Nodup.sublist (List.Sublist.map DatasetPose.id (List.filter_sublist cfg.catalog)) hids

lemma selPoses_length_le (cfg : Config) (s : AppState)
    (hids : (cfg.catalog.map DatasetPose.id).Nodup) :
    (selPoses cfg s).length ≤ s.selectedPoseIds.card := by
  classical
  have hnd := selPoses_id_nodup cfg s hids
  have hsub : ((selPoses cfg s).map DatasetPose.id).toFinset ⊆ s.selectedPoseIds := by
    intro x hx
    rw [List.mem_toFinset] at hx
    obtain ⟨p, hp, rfl⟩ := List.mem_map.mp hx
    simp only [selPoses] at hp
    exact of_decide_eq_true (List.mem_filter.mp hp).2
  calc (selPoses cfg s).length
      = ((selPoses cfg s).map DatasetPose.id).length := (List.length_map _ _).symm
    _ = ((selPoses cfg s).map DatasetPose.id).toFinset.card :=
        (List.toFinset_card_of_nodup hnd).symm
    _ ≤ s.selectedPoseIds.card := Finset.card_le_card hsub

/-- C1: at every observable point during and after a batch run, `task.current`
equals the number of poses processed so far — one task image per success plus
one failed asset per non-fatal failure (`task.images.length` counts exactly
the successful attempts of the log) — and `task.current` never exceeds
`task.total`. -/
theorem c1 (cfg : Config) (s : AppState)
    (hids : (cfg.catalog.map DatasetPose.id).Nodup)
    (hpre : startPrecondFails cfg s = false) :
    ∀ t ∈ (startDatasetModeT cfg s).1 ++ [(startDatasetModeT cfg s).2], TaskInv t := by
  intro t ht
  rw [startDatasetModeT, if_neg (by simp [hpre])] at ht
  refine runLoop_inv cfg (selPoses cfg s) 0 _ ⟨rfl, rfl, Nat.zero_le _⟩ ?_ t ht
  simpa [initState] using selPoses_length_le cfg s hids

/-- C1 witness: the invariant at the final state of a concrete one-pose run. -/
theorem c1_witness : TaskInv (startDatasetMode cfgA sA) :=
  c1 cfgA sA (by decide) (by decide) (startDatasetMode cfgA sA)
    (List.mem_append_right _ (List.mem_singleton.mpr rfl))

lemma runLoop_fatal (cfg : Config) (hsb : ∀ i, cfg.stopBefore i = false)
    (hsd : ∀ i, cfg.stopDuring i = false) :
    ∀ (rest : List DatasetPose) (j i : Nat) (s : AppState) (msg : Str),
      s.isAborted = false → j < rest.length →
      generateCharacterImage (cfg.provider (i + j)) = Except.error msg →
      isFatalMessage msg = true →
      (∀ d, d < j → ∀ m, generateCharacterImage (cfg.provider (i + d)) = Except.error m →
        isFatalMessage m = false) →
      (runLoop cfg i rest s).2.task.status = TaskStatus.failed ∧
      (runLoop cfg i rest s).2.task.error = some msg ∧
      (runLoop cfg i rest s).2.calls = s.calls + (j + 1) := by
  intro rest
  induction rest with
  | nil =>
    intro j i s msg hab hj
    exact absurd hj (by simp)
  | cons pose rest ih =>
    intro j i s msg hab hj hgenj hfm hearly
    have hmid : midState cfg i s = { s with calls := s.calls + 1 } := by
      simp [midState, hsd i]
    cases j with
    | zero =>
      rw [Nat.add_zero] at hgenj
      rw [runLoop_cons_fatal cfg i pose rest s msg (hsb i) hab hgenj hfm]
      refine ⟨rfl, rfl, ?_⟩
      rw [hmid]
      simp [onFatal]
    | succ j' =>
      have hj' : j' < rest.length := by
        simp only [List.length_cons] at hj
        omega
      have hgenj' : generateCharacterImage (cfg.provider (i + 1 + j')) = Except.error msg := by
        rw [show i + 1 + j' = i + (j' + 1) from by omega]
        exact hgenj
      have hearly' : ∀ d, d < j' → ∀ m,
          generateCharacterImage (cfg.provider (i + 1 + d)) = Except.error m →
          isFatalMessage m = false := by
        intro d hd m hm
        refine hearly (d + 1) (by omega) m ?_
        rw [show i + (d + 1) = i + 1 + d from by omega]
        exact hm
      cases hgen : generateCharacterImage (cfg.provider i) with
      | ok u =>
        rw [runLoop_cons_ok cfg i pose rest s u (hsb i) hab hgen]
        have h3 := ih j' (i + 1) (onSuccess (midState cfg i s) pose (composePrompt cfg i pose) u)
          msg (by rw [hmid]; simp [onSuccess, hab]) hj' hgenj' hfm hearly'
        refine ⟨h3.1, h3.2.1, ?_⟩
        rw [h3.2.2, hmid]
        simp only [onSuccess]
        omega
      | error m =>
        have hm : isFatalMessage m = false := by
          refine hearly 0 (by omega) m ?_
          rw [Nat.add_zero]
          exact hgen
        rw [runLoop_cons_nonfatal cfg i pose rest s m (hsb i) hab hgen hm]
        have h3 := ih j' (i + 1) (onNonfatal (midState cfg i s) pose (composePrompt cfg i pose) m)
          msg (by rw [hmid]; simp [onNonfatal, hab]) hj' hgenj' hfm hearly'
        refine ⟨h3.1, h3.2.1, ?_⟩
        rw [h3.2.2, hmid]
        simp only [onNonfatal]
        omega

/-- C2: if the synthesis call for the pose at position `k` (1-based, in
processing order) fails with an authorization/credential failure while all
earlier calls did not fail fatally, the batch sets `task.status = failed`,
records the error message in `task.error`, and performs exactly `k` synthesis
calls — no pose after position `k` is attempted. -/
theorem c2 (cfg : Config) (s : AppState)
    (hsb : ∀ i, cfg.stopBefore i = false) (hsd : ∀ i, cfg.stopDuring i = false)
    (hpre : startPrecondFails cfg s = false)
    (k : Nat) (hk1 : 1 ≤ k) (hk : k ≤ (selPoses cfg s).length) (msg : Str)
    (hfatal : generateCharacterImage (cfg.provider (k - 1)) = Except.error msg)
    (hfm : isFatalMessage msg = true)
    (hearly : ∀ d, d < k - 1 → ∀ m,
      generateCharacterImage (cfg.provider d) = Except.error m → isFatalMessage m = false) :
    (startDatasetMode cfg s).task.status = TaskStatus.failed ∧
    (startDatasetMode cfg s).task.error = some msg ∧
    (startDatasetMode cfg s).calls = k := by
  unfold startDatasetMode
  rw [startDatasetModeT, if_neg (by simp [hpre])]
  have h := runLoop_fatal cfg hsb hsd (selPoses cfg s) (k - 1) 0 (initState s) msg rfl
    (by omega) (by simpa using hfatal) hfm
    (by
      intro d hd m hm
      exact hearly d hd m (by simpa using hm))
  refine ⟨h.1, h.2.1, ?_⟩
  rw [h.2.2]
  simp only [initState]
  omega

/-- C2 witness: a concrete one-pose run whose only synthesis call fails with a
401 message ends failed with that error after exactly one call. -/
theorem c2_witness :
    (startDatasetMode cfgF sA).task.status = TaskStatus.failed ∧
    (startDatasetMode cfgF sA).task.error = some ("Request failed: 401 unauthorized".toList) ∧
    (startDatasetMode cfgF sA).calls = 1 :=
  c2 cfgF sA (fun _ => rfl) (fun _ => rfl) (by decide) 1 (by decide) (by decide)
    ("Request failed: 401 unauthorized".toList) (by rfl) (by decide)
    (by
      intro d hd
      exact absurd hd (by omega))

/-- C3: `stopGeneration` sets the cooperative flag and immediately sets the
task status to `stopped`; the loop observes the flag only at iteration
boundaries, so when cancellation is requested after pose #2 of 5 completes
and before pose #3 begins, the run ends stopped with `current = 2` after
exactly two synthesis calls — pose #3 is never attempted. -/
theorem c3 :
    (∀ s : AppState,
      (stopGeneration s).isAborted = true ∧ (stopGeneration s).task.status = TaskStatus.stopped) ∧
    (∀ (cfg : Config) (s : AppState) (u0 u1 : Str),
      startPrecondFails cfg s = false →
      (selPoses cfg s).length = 5 →
      cfg.stopBefore 0 = false → cfg.stopBefore 1 = false →
      cfg.stopDuring 0 = false → cfg.stopDuring 1 = false →
      cfg.stopBefore 2 = true →
      generateCharacterImage (cfg.provider 0) = Except.ok u0 →
      generateCharacterImage (cfg.provider 1) = Except.ok u1 →
      (startDatasetMode cfg s).task.status = TaskStatus.stopped ∧
      (startDatasetMode cfg s).task.current = 2 ∧
      (startDatasetMode cfg s).calls = 2) := by
  constructor
  · intro s
    exact ⟨rfl, rfl⟩
  · intro cfg s u0 u1 hpre hlen hb0 hb1 hd0 hd1 hb2 h0 h1
    unfold startDatasetMode
    rw [startDatasetModeT, if_neg (by simp [hpre])]
    rcases hL : selPoses cfg s with _ | ⟨a, _ | ⟨b, rest2⟩⟩
    · rw [hL] at hlen
      exact absurd hlen (by simp)
    · rw [hL] at hlen
      exact absurd hlen (by simp)
    · rw [runLoop_cons_ok cfg 0 a (b :: rest2) (initState s) u0 hb0 rfl h0]
      rw [runLoop_cons_ok cfg (0 + 1) b rest2 _ u1 hb1
        (by simp [onSuccess, midState, hd0, initState]) h1]
      rw [runLoop_stop_exit cfg (0 + 1 + 1) rest2 _ hb2]
      refine ⟨rfl, ?_, ?_⟩ <;>
        simp [stopGeneration, onSuccess, midState, hd0, hd1, initState]

/-- C3 witness: the scenario at a concrete five-pose run with a stop request
arriving at the boundary before the third pose. -/
theorem c3_witness :
    ((stopGeneration sA).isAborted = true ∧ (stopGeneration sA).task.status = TaskStatus.stopped) ∧
    ((startDatasetMode cfg5Stop s5).task.status = TaskStatus.stopped ∧
      (startDatasetMode cfg5Stop s5).task.current = 2 ∧
      (startDatasetMode cfg5Stop s5).calls = 2) :=
  ⟨c3.1 sA,
    c3.2 cfg5Stop s5 ("data:image/png;base64,u1".toList) ("data:image/png;base64,u1".toList)
      (by decide) (by decide) (by decide) (by decide) rfl rfl (by decide) (by rfl) (by rfl)⟩

/-- C4 counterexample: a stop request arriving while the only synthesis call
is in flight puts the task in the terminal `stopped` state with `current = 0`,
yet the success handler of the in-flight pose still mutates the task
afterwards (`current` becomes 1 and an image is prepended): a terminal state
is left (fields change) with no new batch involved. -/
theorem c4_cex :
    ((startDatasetModeT cfgD sA).1.map (fun t => (t.task.status, t.task.current))) =
      [(TaskStatus.generating, 0), (TaskStatus.stopped, 0), (TaskStatus.stopped, 1)] ∧
    ((startDatasetMode cfgD sA).task.status, (startDatasetMode cfgD sA).task.current,
      (startDatasetMode cfgD sA).task.images.length) = (TaskStatus.stopped, 1, 1) ∧
    ¬ ((((startDatasetModeT cfgD sA).1 ++ [(startDatasetModeT cfgD sA).2]).map
          (fun t => t.task)).Pairwise
        (fun a b => isTerminalStatus a.status = true → b = a)) :=
  ⟨by decide, by decide, by decide⟩

lemma runLoop_frozen (cfg : Config) (hsd : ∀ i, cfg.stopDuring i = false) :
    ∀ (rest : List DatasetPose) (i : Nat) (s : AppState),
      s.isAborted = false → s.task.status = TaskStatus.generating →
      (((runLoop cfg i rest s).1 ++ [(runLoop cfg i rest s).2]).map (fun t => t.task)).Pairwise
        (fun a b => isTerminalStatus a.status = true → b = a) := by
  intro rest
  induction rest with
  | nil =>
    intro i s hab hgen
    cases hsb : cfg.stopBefore i with
    | true =>
      rw [runLoop_stop_exit cfg i [] s hsb]
      simp only [List.cons_append, List.nil_append, List.map_cons, List.map_nil]
      refine List.Pairwise.cons ?_ (List.pairwise_singleton _ _)
      intro b hb _
      rw [List.mem_singleton] at hb
      exact hb
    | false =>
      rw [runLoop_nil_done cfg i s hsb hab]
      simp only [List.cons_append, List.nil_append, List.map_cons, List.map_nil]
      refine List.Pairwise.cons ?_ (List.pairwise_singleton _ _)
      intro b hb hterm
      rw [hgen] at hterm
      exact absurd hterm (by simp [isTerminalStatus])
  | cons pose rest ih =>
    intro i s hab hgen
    cases hsb : cfg.stopBefore i with
    | true =>
      rw [runLoop_stop_exit cfg i _ s hsb]
      simp only [List.cons_append, List.nil_append, List.map_cons, List.map_nil]
      refine List.Pairwise.cons ?_ (List.pairwise_singleton _ _)
      intro b hb _
      rw [List.mem_singleton] at hb
      exact hb
    | false =>
      have hmid : midState cfg i s = { s with calls := s.calls + 1 } := by
        simp [midState, hsd i]
      have hmidtask : (midState cfg i s).task = s.task := by rw [hmid]
      cases hgenr : generateCharacterImage (cfg.provider i) with
      | ok u =>
        rw [runLoop_cons_ok cfg i pose rest s u hsb hab hgenr]
        simp only [List.cons_append, List.map_cons]
        refine List.Pairwise.cons ?_ (List.Pairwise.cons ?_ ?_)
        · intro b hb hterm
          rw [hgen] at hterm
          exact absurd hterm (by simp [isTerminalStatus])
        · intro b hb hterm
          rw [hmidtask, hgen] at hterm
          exact absurd hterm (by simp [isTerminalStatus])
        · refine ih (i + 1) _ ?_ ?_
          · rw [hmid]
            simp [onSuccess, hab]
          · rw [show (onSuccess (midState cfg i s) pose (composePrompt cfg i pose) u).task.status
                = (midState cfg i s).task.status from rfl, hmidtask, hgen]
      | error msg =>
        cases hf : isFatalMessage msg with
        | true =>
          rw [runLoop_cons_fatal cfg i pose rest s msg hsb hab hgenr hf]
          simp only [List.cons_append, List.nil_append, List.map_cons, List.map_nil]
          refine List.Pairwise.cons ?_ (List.Pairwise.cons ?_ (List.pairwise_singleton _ _))
          · intro b hb hterm
            rw [hgen] at hterm
            exact absurd hterm (by simp [isTerminalStatus])
          · intro b hb hterm
            rw [hmidtask, hgen] at hterm
            exact absurd hterm (by simp [isTerminalStatus])
        | false =>
          rw [runLoop_cons_nonfatal cfg i pose rest s msg hsb hab hgenr hf]
          simp only [List.cons_append, List.map_cons]
          refine List.Pairwise.cons ?_ (List.Pairwise.cons ?_ ?_)
          · intro b hb hterm
            rw [hgen] at hterm
            exact absurd hterm (by simp [isTerminalStatus])
          · intro b hb hterm
            rw [hmidtask, hgen] at hterm
            exact absurd hterm (by simp [isTerminalStatus])
          · refine ih (i + 1) _ ?_ ?_
            · rw [hmid]
              simp [onNonfatal, hab]
            · rw [show (onNonfatal (midState cfg i s) pose (composePrompt cfg i pose) msg).task.status
                  = (midState cfg i s).task.status from rfl, hmidtask, hgen]

/-- C4 (amended): provided no stop request arrives while a synthesis call is
in flight, once the task reaches a terminal state (`completed`, `failed`, or
`stopped`) no later observable state of the run changes it — the task record
is frozen for the rest of the batch; only a new batch re-initializes it. A
stop request during an in-flight call is the exception the counterexample
exhibits. -/
theorem c4 (cfg : Config) (s : AppState) (hsd : ∀ i, cfg.stopDuring i = false) :
    (((startDatasetModeT cfg s).1 ++ [(startDatasetModeT cfg s).2]).map (fun t => t.task)).Pairwise
      (fun a b => isTerminalStatus a.status = true → b = a) := by
  by_cases hpre : startPrecondFails cfg s = true
  · rw [startDatasetModeT, if_pos hpre]
    simp only [List.nil_append, List.map_cons, List.map_nil]
    exact List.pairwise_singleton _ _
  · rw [startDatasetModeT, if_neg hpre]
    exact runLoop_frozen cfg hsd (selPoses cfg s) 0 (initState s) rfl rfl

/-- C4 witness: the amended C4 at a concrete stop-free one-pose run. -/
theorem c4_witness :
    (((startDatasetModeT cfgA sA).1 ++ [(startDatasetModeT cfgA sA).2]).map (fun t => t.task)).Pairwise
      (fun a b => isTerminalStatus a.status = true → b = a) :=
  c4 cfgA sA (fun _ => rfl)

lemma midState_keeps (cfg : Config) (i : Nat) (s : AppState) :
    (midState cfg i s).createdImages = s.createdImages ∧
    (midState cfg i s).task.images = s.task.images ∧
    (midState cfg i s).gallery = s.gallery ∧
    (midState cfg i s).attemptLog = s.attemptLog ∧
    (midState cfg i s).selectedPoseIds = s.selectedPoseIds := by
  by_cases h : cfg.stopDuring i = true <;> simp [midState, h, stopGeneration]

lemma runLoop_delta (cfg : Config) :
    ∀ (rest : List DatasetPose) (i : Nat) (s : AppState),
      ∃ (d : List GeneratedImage) (a : List (DatasetPose × Bool)),
        (runLoop cfg i rest s).2.createdImages = s.createdImages ++ d ∧
        (runLoop cfg i rest s).2.task.images = d.reverse ++ s.task.images ∧
        (runLoop cfg i rest s).2.gallery = d.reverse ++ s.gallery ∧
        (runLoop cfg i rest s).2.attemptLog = s.attemptLog ++ a ∧
        (a.map Prod.fst) <+: rest ∧
        ∀ x : Str, x ∈ (runLoop cfg i rest s).2.selectedPoseIds ↔
          (x ∈ s.selectedPoseIds ∧ x ∉ successIds a) := by
  intro rest
  induction rest with
  | nil =>
    intro i s
    by_cases hsb : cfg.stopBefore i = true
    · rw [runLoop_stop_exit cfg i [] s hsb]
      exact ⟨[], [], by simp [stopGeneration], by simp [stopGeneration],
        by simp [stopGeneration], by simp [stopGeneration], by simp,
        by simp [stopGeneration, successIds]⟩
    · have hsb' : cfg.stopBefore i = false := by simpa using hsb
      cases hab : s.isAborted with
      | true =>
        rw [runLoop_abort cfg i [] s hsb' hab]
        exact ⟨[], [], by simp, by simp, by simp, by simp, by simp, by simp [successIds]⟩
      | false =>
        rw [runLoop_nil_done cfg i s hsb' hab]
        exact ⟨[], [], by simp, by simp, by simp, by simp, by simp, by simp [successIds]⟩
  | cons pose rest ih =>
    intro i s
    by_cases hsb : cfg.stopBefore i = true
    · rw [runLoop_stop_exit cfg i _ s hsb]
      exact ⟨[], [], by simp [stopGeneration], by simp [stopGeneration],
        by simp [stopGeneration], by simp [stopGeneration], by simp,
        by simp [stopGeneration, successIds]⟩
    · have hsb' : cfg.stopBefore i = false := by simpa using hsb
      cases hab : s.isAborted with
      | true =>
        rw [runLoop_abort cfg i _ s hsb' hab]
        exact ⟨[], [], by simp, by simp, by simp, by simp, by simp, by simp [successIds]⟩
      | false =>
        obtain ⟨hkc, hki, hkg, hkl, hks⟩ := midState_keeps cfg i s
        cases hgenr : generateCharacterImage (cfg.provider i) with
        | ok u =>
          rw [runLoop_cons_ok cfg i pose rest s u hsb' hab hgenr]
          obtain ⟨d, a, h1, h2, h3, h4, h5, h6⟩ :=
            ih (i + 1) (onSuccess (midState cfg i s) pose (composePrompt cfg i pose) u)
          refine ⟨mkImage (midState cfg i s) pose (composePrompt cfg i pose) u :: d,
            (pose, true) :: a, ?_, ?_, ?_, ?_, ?_, ?_⟩
          · rw [h1]
            simp [onSuccess, hkc]
          · rw [h2]
            simp [onSuccess, hki]
          · rw [h3]
            simp [onSuccess, hkg]
          · rw [h4]
            simp [onSuccess, hkl]
          · exact List.cons_prefix_cons.mpr ⟨rfl, h5⟩
          · intro x
            rw [h6 x]
            have hsel : (onSuccess (midState cfg i s) pose (composePrompt cfg i pose) u).selectedPoseIds
                = s.selectedPoseIds.erase pose.id := by
              simp [onSuccess, hks]
            rw [hsel, Finset.mem_erase]
            have hsucc : successIds ((pose, true) :: a) = pose.id :: successIds a := by
              simp [successIds]
            rw [hsucc]
            simp only [List.mem_cons, not_or]
            tauto
        | error msg =>
          cases hf : isFatalMessage msg with
          | true =>
            rw [runLoop_cons_fatal cfg i pose rest s msg hsb' hab hgenr hf]
            refine ⟨[], [(pose, false)], ?_, ?_, ?_, ?_, ?_, ?_⟩
            · simp [onFatal, hkc]
            · simp [onFatal, hki]
            · simp [onFatal, hkg]
            · simp [onFatal, hkl]
            · exact List.cons_prefix_cons.mpr ⟨rfl, List.nil_prefix⟩
            · intro x
              simp [onFatal, hks, successIds]
          | false =>
            rw [runLoop_cons_nonfatal cfg i pose rest s msg hsb' hab hgenr hf]
            obtain ⟨d, a, h1, h2, h3, h4, h5, h6⟩ :=
              ih (i + 1) (onNonfatal (midState cfg i s) pose (composePrompt cfg i pose) msg)
            refine ⟨d, (pose, false) :: a, ?_, ?_, ?_, ?_, ?_, ?_⟩
            · rw [h1]
              simp [onNonfatal, hkc]
            · rw [h2]
              simp [onNonfatal, hki]
            · rw [h3]
              simp [onNonfatal, hkg]
            · rw [h4]
              simp [onNonfatal, hkl]
            · exact List.cons_prefix_cons.mpr ⟨rfl, h5⟩
            · intro x
              rw [h6 x]
              have hsel : (onNonfatal (midState cfg i s) pose (composePrompt cfg i pose) msg).selectedPoseIds
                  = s.selectedPoseIds := by
                simp [onNonfatal, hks]
              rw [hsel]
              simp [successIds]

/-- C5 counterexample: in a two-pose run processed in catalog order p1 then
p2, the task image list (and gallery) holds the images in the reverse
(newest-first) order, not in processing order. -/
theorem c5_cex :
    ((startDatasetMode cfgE sE).createdImages.map (fun im => im.url)) =
      ["data:image/png;base64,u1".toList, "data:image/png;base64,u2".toList] ∧
    ((startDatasetMode cfgE sE).task.images.map (fun im => im.url)) =
      ["data:image/png;base64,u2".toList, "data:image/png;base64,u1".toList] ∧
    (startDatasetMode cfgE sE).task.images ≠ (startDatasetMode cfgE sE).createdImages ∧
    ((selPoses cfgE sE).map (fun p => p.id)) = ["p1".toList, "p2".toList] :=
  ⟨by decide, by decide, by decide, by decide⟩

/-- C5 (amended): the attempted poses form a prefix of the catalog filtered to
the selected ids (catalog order), and the task image list and the gallery
hold the successfully created images in exactly the reverse (newest-first) of
that processing order — no other reordering occurs. -/
theorem c5 (cfg : Config) (s : AppState) (hpre : startPrecondFails cfg s = false) :
    (startDatasetMode cfg s).task.images = (startDatasetMode cfg s).createdImages.reverse ∧
    (startDatasetMode cfg s).gallery = (startDatasetMode cfg s).createdImages.reverse ++ s.gallery ∧
    ((startDatasetMode cfg s).attemptLog.map Prod.fst) <+: selPoses cfg s := by
  unfold startDatasetMode
  rw [startDatasetModeT, if_neg (by simp [hpre])]
  obtain ⟨d, a, h1, h2, h3, h4, h5, h6⟩ := runLoop_delta cfg (selPoses cfg s) 0 (initState s)
  rw [show (initState s).createdImages = [] from rfl, List.nil_append] at h1
  rw [show (initState s).task.images = [] from rfl, List.append_nil] at h2
  rw [show (initState s).gallery = s.gallery from rfl] at h3
  rw [show (initState s).attemptLog = [] from rfl, List.nil_append] at h4
  refine ⟨?_, ?_, ?_⟩
  · rw [h2, h1]
  · rw [h3, h1]
  · rw [h4]
    exact h5

/-- C5 witness: the amended C5 at the concrete two-pose run. -/
theorem c5_witness :
    (startDatasetMode cfgE sE).task.images = (startDatasetMode cfgE sE).createdImages.reverse ∧
    (startDatasetMode cfgE sE).gallery = (startDatasetMode cfgE sE).createdImages.reverse ++ sE.gallery ∧
    ((startDatasetMode cfgE sE).attemptLog.map Prod.fst) <+: selPoses cfgE sE :=
  c5 cfgE sE (by decide)

/-- C8: per attempted pose of a batch run, success removes the pose id from
the selection set (it is absent from the final selection), while any failure
— fatal or non-fatal — leaves the pose id in the selection set. -/
theorem c8 (cfg : Config) (s : AppState)
    (hids : (cfg.catalog.map DatasetPose.id).Nodup)
    (hpre : startPrecondFails cfg s = false) :
    ∀ (p : DatasetPose) (b : Bool), (p, b) ∈ (startDatasetMode cfg s).attemptLog →
      (b = true → p.id ∉ (startDatasetMode cfg s).selectedPoseIds) ∧
      (b = false → p.id ∈ (startDatasetMode cfg s).selectedPoseIds) := by
  unfold startDatasetMode
  rw [startDatasetModeT, if_neg (by simp [hpre])]
  obtain ⟨d, a, h1, h2, h3, h4, h5, h6⟩ := runLoop_delta cfg (selPoses cfg s) 0 (initState s)
  rw [show (initState s).attemptLog = [] from rfl, List.nil_append] at h4
  intro p b hp
  rw [h4] at hp
  have hsub : List.Sublist (a.map Prod.fst) (selPoses cfg s) := h5.sublist
  have hnodupids : ((a.map Prod.fst).map DatasetPose.id).Nodup :=
    List.Nodup.sublist (List.Sublist.map _ hsub) (selPoses_id_nodup cfg s hids)
  constructor
  · intro hb
    subst hb
    have hmemsucc : p.id ∈ successIds a := by
      have hfil : (p, true) ∈ a.filter (fun q => q.2) := List.mem_filter.mpr ⟨hp, rfl⟩
      exact List.mem_map.mpr ⟨(p, true), hfil, rfl⟩
    intro hmem
    exact ((h6 p.id).mp hmem).2 hmemsucc
  · intro hb
    subst hb
    refine (h6 p.id).mpr ⟨?_, ?_⟩
    · have hpmem : p ∈ selPoses cfg s :=
        hsub.subset (List.mem_map.mpr ⟨(p, false), hp, rfl⟩)
      simp only [selPoses] at hpmem
      exact of_decide_eq_true (List.mem_filter.mp hpmem).2
    · intro hin
      obtain ⟨q, hq, hqid⟩ := List.mem_map.mp hin
      have hqa : q ∈ a := (List.mem_filter.mp hq).1
      have hqtrue : q.2 = true := (List.mem_filter.mp hq).2
      have hnodup2 : (a.map (fun q => q.1.id)).Nodup := by
        have he : a.map (fun q => q.1.id) = (a.map Prod.fst).map DatasetPose.id := by
          simp [List.map_map, Function.comp]
        rw [he]
        exact hnodupids
      have heq : (p, false) = q :=
        List.inj_on_of_nodup_map hnodup2 hp hqa (by rw [hqid])
      rw [← heq] at hqtrue
      exact Bool.false_ne_true hqtrue

/-- C8 witness: in the concrete one-pose run the single attempt succeeds and
its pose id is gone from the selection set. -/
theorem c8_witness :
    (true = true → poseA.id ∉ (startDatasetMode cfgA sA).selectedPoseIds) ∧
    (true = false → poseA.id ∈ (startDatasetMode cfgA sA).selectedPoseIds) :=
  c8 cfgA sA (by decide) (by decide) poseA true (by decide)

lemma noCandidates_of_empty (resp : GenResponse)
    (h : resp.candidates = none ∨ resp.candidates = some []) :
    generateCharacterImage (ProviderResult.ok resp) =
      Except.error ("The model did not return any candidates.".toList) := by
  rcases h with h | h <;>
    · simp [generateCharacterImage, generateCharacterImageRaw, h]
      decide

/-- C9: a provider response with no candidates makes the synthesis call fail
with the `NoCandidates` message; in a five-pose batch where only pose #3 fails
this way, the orchestrator records exactly one `FailedAsset` carrying that
pose's label, the error message and the exact prompt attempted, still
increments `task.current`, and continues: the run ends `completed` with
`current = 5`, four images, and five synthesis calls. -/
theorem c9 (cfg : Config) (s : AppState)
    (hsb : ∀ i, cfg.stopBefore i = false) (hsd : ∀ i, cfg.stopDuring i = false)
    (hpre : startPrecondFails cfg s = false)
    (p1 p2 p3 p4 p5 : DatasetPose) (u0 u1 u3 u4 : Str) (r2 : GenResponse)
    (hsel : selPoses cfg s = [p1, p2, p3, p4, p5])
    (h0 : generateCharacterImage (cfg.provider 0) = Except.ok u0)
    (h1 : generateCharacterImage (cfg.provider 1) = Except.ok u1)
    (h2 : cfg.provider 2 = ProviderResult.ok r2)
    (h2c : r2.candidates = none ∨ r2.candidates = some [])
    (h3 : generateCharacterImage (cfg.provider 3) = Except.ok u3)
    (h4 : generateCharacterImage (cfg.provider 4) = Except.ok u4) :
    (startDatasetMode cfg s).task.status = TaskStatus.completed ∧
    (startDatasetMode cfg s).task.current = 5 ∧
    (startDatasetMode cfg s).task.images.length = 4 ∧
    (startDatasetMode cfg s).failedAssets.map (fun f => (f.label, f.message, f.prompt)) =
      [(p3.label, ("The model did not return any candidates.".toList),
        composePrompt cfg 2 p3)] ∧
    (startDatasetMode cfg s).calls = 5 := by
  have herr2 : generateCharacterImage (cfg.provider 2) =
      Except.error ("The model did not return any candidates.".toList) := by
    rw [h2]
    exact noCandidates_of_empty r2 h2c
  have hnf : isFatalMessage ("The model did not return any candidates.".toList) = false := by
    decide
  unfold startDatasetMode
  rw [startDatasetModeT, if_neg (by simp [hpre]), hsel]
  rw [runLoop_cons_ok cfg 0 p1 _ (initState s) u0 (hsb 0) rfl h0]
  rw [runLoop_cons_ok cfg (0 + 1) p2 _ _ u1 (hsb (0 + 1))
    (by simp [onSuccess, midState, hsd, initState]) h1]
  rw [runLoop_cons_nonfatal cfg (0 + 1 + 1) p3 _ _
    ("The model did not return any candidates.".toList) (hsb (0 + 1 + 1))
    (by simp [onSuccess, midState, hsd, initState]) herr2 hnf]
  rw [runLoop_cons_ok cfg (0 + 1 + 1 + 1) p4 _ _ u3 (hsb (0 + 1 + 1 + 1))
    (by simp [onSuccess, onNonfatal, midState, hsd, initState]) h3]
  rw [runLoop_cons_ok cfg (0 + 1 + 1 + 1 + 1) p5 _ _ u4 (hsb (0 + 1 + 1 + 1 + 1))
    (by simp [onSuccess, onNonfatal, midState, hsd, initState]) h4]
  rw [runLoop_nil_done cfg (0 + 1 + 1 + 1 + 1 + 1) _ (hsb (0 + 1 + 1 + 1 + 1 + 1))
    (by simp [onSuccess, onNonfatal, midState, hsd, initState])]
  refine ⟨rfl, ?_, ?_, ?_, ?_⟩ <;>
    simp [onSuccess, onNonfatal, midState, mkImage, hsd, initState]

/-- C9 witness: the scenario at a concrete five-pose run whose third provider
response has an empty candidate list. -/
theorem c9_witness :
    (startDatasetMode cfg5Fail s5).task.status = TaskStatus.completed ∧
    (startDatasetMode cfg5Fail s5).task.current = 5 ∧
    (startDatasetMode cfg5Fail s5).task.images.length = 4 ∧
    (startDatasetMode cfg5Fail s5).failedAssets.map (fun f => (f.label, f.message, f.prompt)) =
      [((poseN 3).label, ("The model did not return any candidates.".toList),
        composePrompt cfg5Fail 2 (poseN 3))] ∧
    (startDatasetMode cfg5Fail s5).calls = 5 :=
  c9 cfg5Fail s5 (fun _ => rfl) (fun _ => rfl) (by decide)
    (poseN 1) (poseN 2) (poseN 3) (poseN 4) (poseN 5)
    ("data:image/png;base64,u1".toList) ("data:image/png;base64,u1".toList)
    ("data:image/png;base64,u1".toList) ("data:image/png;base64,u1".toList) respEmpty
    (by decide) (by rfl) (by rfl) (by rfl) (Or.inr rfl) (by rfl) (by rfl)

end ULPG
